import Mathlib

/-!
Verification of the nav2 pure-pursuit controller
(`src/nav2_pure_pursuit_controller/src/pure_pursuit_controller.cpp`)
against its natural-language specification.

The controller's numeric state (poses, velocities, time stamps) is modelled
over the real numbers; the C++ `double` arithmetic at the inputs used in the
concrete theorems below is exact, so the real-valued model is faithful there.
Stateful methods are modelled by explicit state passing on `ControllerState`
(the held global plan and the last emitted command); fallible paths return
`Except ControllerError`.

Source caveats reflected in the model, each noted at its definition:
* `isCollisionImminent` has an empty body (only TODO comments), so a call
  reaches the end of a non-void function; it produces no boolean and is
  modelled as `Option Bool` returning `none`.  Where
  `computeVelocityCommands` branches on its result, the model takes the
  unspecified boolean as an oracle parameter `collisionUB`.
* `applyKinematicConstraints` writes `max_decel` / `max_accel` for the member
  variables `max_decel_` / `max_accel_` and leaves a stray placeholder line
  `const double dt = ...;` shadowing its `dt` parameter; the model resolves
  these to the member bounds and the parameter, the only reading consistent
  with the surrounding declarations.
* `getLookAheadDistance` reads `speed.linear.x` with no member or parameter
  named `speed`; the model passes the current twist (the `speed` argument of
  `computeVelocityCommands`) explicitly.
-/

namespace PurePursuit

noncomputable section

open Classical

/-- Planar position, `geometry_msgs` position restricted to the x/y fields the
controller reads. -/
structure Position where
  x : ℝ
  y : ℝ

/-- A stamped pose: frame id, time stamp (seconds) and planar position.
Orientation is never read by the controller logic, so it is omitted. -/
structure PoseStamped where
  frame_id : String
  stamp : ℝ
  position : Position

/-- The default-constructed `geometry_msgs::msg::PoseStamped`: empty frame,
zero stamp, zero position.  This is the initial value of the local
`transformed_pose` variable in `transformGlobalPlan`. -/
def defaultPose : PoseStamped := ⟨"", 0, ⟨0, 0⟩⟩

/-- The two twist components the controller writes: `linear.x` and
`angular.z`. -/
structure Twist where
  linear : ℝ
  angular : ℝ

/-- A stamped velocity command (`geometry_msgs::msg::TwistStamped`). -/
structure TwistStamped where
  frame_id : String
  stamp : ℝ
  twist : Twist

/-- A path message: header frame id and stamp plus the ordered pose list. -/
structure Path where
  frame_id : String
  stamp : ℝ
  poses : List PoseStamped

/-- Configuration parameters read in `configure`, plus the costmap
collaborator values (`getSizeInCellsX/Y`, `getResolution`, `getBaseFrameID`)
that the tick treats as fixed. -/
structure Config where
  desired_linear_vel : ℝ
  max_accel : ℝ
  max_decel : ℝ
  lookahead_dist : ℝ
  min_lookahead_dist : ℝ
  max_lookahead_dist : ℝ
  lookahead_gain : ℝ
  max_angular_vel : ℝ
  use_velocity_scaled_lookahead_dist : Bool
  costmap_size_x : ℕ
  costmap_size_y : ℕ
  costmap_resolution : ℝ
  base_frame : String

/-- The shared mutable state of the controller: the held global plan
(`global_plan_`) and the last emitted command (`last_cmd_`). -/
structure ControllerState where
  global_plan : Path
  last_cmd : TwistStamped

/-- The error outcomes a tick can raise: the two `PlannerException` throws in
`transformGlobalPlan` ("Received plan with zero length", "Unable to transform
robot pose into global plan's frame", "Resulting plan has 0 poses in it.") and
the collision throw in `computeVelocityCommands`. -/
inductive ControllerError where
  | emptyPlan
  | transformFailure
  | emptyWindow
  | collisionImminent
deriving DecidableEq

/-- The frame-transform collaborator (`tf_->transform` with the configured
tolerance): given a target frame and an input pose, either the transformed
pose or `none` when the underlying service throws `tf2::TransformException`. -/
def TFOracle : Type := String → PoseStamped → Option PoseStamped

/-- PurePursuitController::transformPose.  Returns the input unchanged when it
is already in the target frame; otherwise delegates to the transform service,
reporting failure (`false` plus untouched output in C++) as `none`. -/
def transformPose (tf : TFOracle) (frame : String) (in_pose : PoseStamped) :
    Option PoseStamped :=
  if in_pose.frame_id = frame then some in_pose else tf frame in_pose

/-- PurePursuitController::setPlan.  The source publishes the path and then
assigns `global_plan_ = path` unconditionally: no emptiness check, no failure
path, and `last_cmd_` untouched. -/
def setPlan (st : ControllerState) (path : Path) : ControllerState :=
  { st with global_plan := path }

/-- PurePursuitController::isCollisionImminent.  The body of the source
function consists solely of TODO comments — control reaches the end of a
non-void function, so no boolean value is ever produced (undefined behavior in
C++).  Modelled as an `Option Bool` that is always `none`: there is in
particular no execution path that returns the value `false`. -/
def isCollisionImminent (robot_pose carrot_pose : PoseStamped) : Option Bool :=
  none

/-- std::hypot on the two components the controller uses. -/
def hypot (x y : ℝ) : ℝ := Real.sqrt (x ^ 2 + y ^ 2)

/-- nav2_util::geometry_utils::euclidean_distance on stamped poses, restricted
to the planar components the model carries. -/
def euclidean_distance (a b : PoseStamped) : ℝ :=
  hypot (a.position.x - b.position.x) (a.position.y - b.position.y)

/-- std::clamp (from `<algorithm>`): `lo` when `v < lo`, `hi` when `hi < v`,
otherwise `v` itself.  Well-behaved only under the precondition `lo ≤ hi`. -/
def stdClamp (v lo hi : ℝ) : ℝ :=
  if v < lo then lo else if hi < v then hi else v

/-- Distance of a window pose from the robot-local origin, the quantity
`hypot(ps.pose.position.x, ps.pose.position.y)` scanned by the carrot search
in `computeVelocityCommands`. -/
def dist0 (p : PoseStamped) : ℝ := hypot p.position.x p.position.y

/-- The curvature law inlined in `computeVelocityCommands`:
`2 * y / carrot_dist²` when `carrot_dist > 0.001`, else the initial value
`0.0`. -/
def curvature (y d : ℝ) : ℝ :=
  if d > 0.001 then 2 * y / (d * d) else 0

/-- The carrot-distance expression of `computeVelocityCommands`: note that it
subtracts the carrot's coordinates (robot-local frame after windowing) from
the robot pose's own coordinates in the frame the pose was handed in. -/
def carrotDistance (pose carrot : PoseStamped) : ℝ :=
  hypot (pose.position.x - carrot.position.x)
    (pose.position.y - carrot.position.y)

/-- Loop of the file-local `min_by` template: carries the lowest value seen so
far and its index; a later element replaces the current best only under
strict `<`, so the earliest minimising index wins. -/
def minByAux (f : PoseStamped → ℝ) : List PoseStamped → ℝ → ℕ → ℕ → ℕ
  | [], _, _, best => best
  | p :: rest, lowest, i, best =>
    if f p < lowest then minByAux f rest (f p) (i + 1) i
    else minByAux f rest lowest (i + 1) best

/-- Index of the first pose minimising `f`, as computed by `min_by` over the
whole pose list (callers guarantee non-emptiness; `min_by` returns the end
iterator on an empty range, modelled as index 0). -/
def minByIdx (f : PoseStamped → ℝ) : List PoseStamped → ℕ
  | [] => 0
  | p :: rest => minByAux f rest (f p) 1 0

/-- The `std::find_if` windowing step of `transformGlobalPlan`: starting from
the closest pose, keep poses until the first one whose distance to the robot
exceeds `max_transform_dist`; that pose is `transformation_end` and is
excluded. -/
def windowTo (robot : PoseStamped) (maxDist : ℝ) :
    List PoseStamped → List PoseStamped
  | [] => []
  | p :: rest =>
    if euclidean_distance robot p > maxDist then []
    else p :: windowTo robot maxDist rest

/-- The `std::transform` over the window with the `transformGlobalPoseToLocal`
lambda.  The lambda writes into the captured local `transformed_pose` and
ignores the boolean returned by `transformPose`; on a failed transform the
variable keeps its previous value, so the output reuses the last successfully
transformed pose (`defaultPose` when no transform has succeeded yet). -/
def transformWindow (tf : TFOracle) (base_frame plan_frame : String)
    (stamp : ℝ) : PoseStamped → List PoseStamped → List PoseStamped
  | _, [] => []
  | prev, gp :: rest =>
    match transformPose tf base_frame ⟨plan_frame, stamp, gp.position⟩ with
    | some t => t :: transformWindow tf base_frame plan_frame stamp t rest
    | none => prev :: transformWindow tf base_frame plan_frame stamp prev rest

/-- PurePursuitController::transformGlobalPlan, acting on the held plan and
returning the updated plan together with the tick outcome.  The order of
effects follows the source: the empty-plan and robot-transform failures throw
before any mutation, but the prefix erasure (`global_plan_.poses.erase`) runs
before the empty-window check, so that failure leaves the plan pruned. -/
def transformGlobalPlanAux (cfg : Config) (tf : TFOracle) (plan : Path)
    (pose : PoseStamped) : Path × Except ControllerError Path :=
  if plan.poses = [] then (plan, .error .emptyPlan)
  else
    match transformPose tf plan.frame_id pose with
    | none => (plan, .error .transformFailure)
    | some robot_pose =>
      let max_costmap_dim : ℝ := (max cfg.costmap_size_x cfg.costmap_size_y : ℕ)
      let max_transform_dist := max_costmap_dim * cfg.costmap_resolution / 2
      let b := minByIdx (fun ps => euclidean_distance robot_pose ps) plan.poses
      let window_global := windowTo robot_pose max_transform_dist (plan.poses.drop b)
      let transformed_poses :=
        transformWindow tf cfg.base_frame plan.frame_id robot_pose.stamp
          defaultPose window_global
      let pruned : Path := { plan with poses := plan.poses.drop b }
      if transformed_poses = [] then (pruned, .error .emptyWindow)
      else
        (pruned,
         .ok { frame_id := cfg.base_frame, stamp := robot_pose.stamp,
               poses := transformed_poses })

/-- transformGlobalPlan lifted to the controller state: only `global_plan_` is
written, `last_cmd_` is untouched. -/
def transformGlobalPlan (cfg : Config) (tf : TFOracle) (st : ControllerState)
    (pose : PoseStamped) : ControllerState × Except ControllerError Path :=
  let r := transformGlobalPlanAux cfg tf st.global_plan pose
  ({ st with global_plan := r.1 }, r.2)

/-- PurePursuitController::getLookAheadDistance, with the current twist passed
explicitly (the source reads `speed.linear.x`, resolved to the `speed`
argument of `computeVelocityCommands`). -/
def getLookAheadDistance (cfg : Config) (speed : Twist) : ℝ :=
  if cfg.use_velocity_scaled_lookahead_dist then
    stdClamp (speed.linear * cfg.lookahead_gain) cfg.min_lookahead_dist
      cfg.max_lookahead_dist
  else cfg.lookahead_dist

/-- The `std::find_if` carrot scan of `computeVelocityCommands`: the first
pose whose distance from the robot-local origin is at least the lookahead
distance. -/
def findCarrot (lookahead : ℝ) : List PoseStamped → Option PoseStamped
  | [] => none
  | p :: rest => if dist0 p ≥ lookahead then some p else findCarrot lookahead rest

/-- Carrot selection: the find_if result when it exists, otherwise
`std::prev(end)`, the last pose of the window (`none` on an empty window,
where the C++ iterator arithmetic would be invalid; `transformGlobalPlan`
guarantees a non-empty window on the success path). -/
def selectCarrot (poses : List PoseStamped) (lookahead : ℝ) :
    Option PoseStamped :=
  match findCarrot lookahead poses with
  | some c => some c
  | none => poses.getLast?

/-- The per-axis acceleration limiting of `applyKinematicConstraints`:
`measured = (raw − last)/dt`; above `max_accel` the output is
`last + max_accel·dt`, below `−max_decel` it is `last − max_decel·dt`,
otherwise the raw value passes through. -/
def limitAccel (maxA maxD last raw dt : ℝ) : ℝ :=
  let measured := (raw - last) / dt
  if measured > maxA then last + maxA * dt
  else if measured < -maxD then last - maxD * dt
  else raw

/-- PurePursuitController::applyKinematicConstraints: end-of-path scaling of
the linear velocity when `dist_error` exceeds twice the costmap resolution,
then the shared-bound acceleration limiting on each axis.  The source's stray
`const double dt = ...;` placeholder and the bare `max_accel` / `max_decel`
identifiers are resolved to the `dt` parameter and the member bounds. -/
def applyKinematicConstraints (cfg : Config) (last_cmd : TwistStamped)
    (linear_vel angular_vel dist_error lookahead_dist dt : ℝ) : ℝ × ℝ :=
  let linear1 :=
    if dist_error > 2 * cfg.costmap_resolution then
      linear_vel * (dist_error / lookahead_dist)
    else linear_vel
  (limitAccel cfg.max_accel cfg.max_decel last_cmd.twist.linear linear1 dt,
   limitAccel cfg.max_accel cfg.max_decel last_cmd.twist.angular angular_vel dt)

/-- PurePursuitController::computeVelocityCommands.  Because the collision
stub produces no boolean (see `isCollisionImminent`), the value the undefined
branch observes is an oracle parameter `collisionUB`; `now` stands for
`clock_->now()`.  The pipeline follows the source: window the plan, pick the
carrot, curvature law, kinematic constraints with
`dt = pose.stamp − last_cmd_.stamp`, final clamps, collision interlock, then
commit `last_cmd_` and return the command. -/
def computeVelocityCommands (cfg : Config) (tf : TFOracle)
    (collisionUB : PoseStamped → PoseStamped → Bool) (now : ℝ)
    (st : ControllerState) (pose : PoseStamped) (speed : Twist) :
    ControllerState × Except ControllerError TwistStamped :=
  let st1 := (transformGlobalPlan cfg tf st pose).1
  match (transformGlobalPlan cfg tf st pose).2 with
  | .error e => (st1, .error e)
  | .ok transformed_plan =>
    let lookahead_dist := getLookAheadDistance cfg speed
    match selectCarrot transformed_plan.poses lookahead_dist with
    | none => (st1, .error .emptyWindow)
    | some carrot =>
      let carrot_dist := carrotDistance pose carrot
      let curv := curvature carrot.position.y carrot_dist
      let linear_vel := cfg.desired_linear_vel
      let angular_vel := cfg.desired_linear_vel * curv
      let dt := pose.stamp - st.last_cmd.stamp
      let lim := applyKinematicConstraints cfg st.last_cmd linear_vel
        angular_vel |lookahead_dist - carrot_dist| lookahead_dist dt
      let angular2 := stdClamp lim.2 (-cfg.max_angular_vel) cfg.max_angular_vel
      let linear2 := stdClamp lim.1 0 cfg.desired_linear_vel
      if collisionUB pose carrot then (st1, .error .collisionImminent)
      else
        let cmd : TwistStamped := ⟨pose.frame_id, now, ⟨linear2, angular2⟩⟩
        ({ st1 with last_cmd := cmd }, .ok cmd)

/-- Transform oracle that always fails.  Every concrete run below stays in a
single frame, so only the identity branch of `transformPose` is exercised and
the oracle is never consulted. -/
def tfNone : TFOracle := fun _ _ => none

/-- Collision oracle resolving the undefined stub value to `false`. -/
def noCollision : PoseStamped → PoseStamped → Bool := fun _ _ => false

/-- Concrete configuration: the default parameter values declared in
`configure` (desired_linear_vel 0.5, max_accel 1, max_decel 1, lookahead 0.4,
clamp bounds 0.3/0.6, gain 1.5, max_angular_vel 1, scaling off), with a
10×10-cell costmap at resolution 1 m based in frame "map". -/
def cfgW : Config :=
  { desired_linear_vel := 0.5
    max_accel := 1
    max_decel := 1
    lookahead_dist := 0.4
    min_lookahead_dist := 0.3
    max_lookahead_dist := 0.6
    lookahead_gain := 1.5
    max_angular_vel := 1
    use_velocity_scaled_lookahead_dist := false
    costmap_size_x := 10
    costmap_size_y := 10
    costmap_resolution := 1
    base_frame := "map" }

/-- A plan pose one metre ahead of the origin, in frame "map". -/
def poseM : PoseStamped := ⟨"map", 0, ⟨1, 0⟩⟩

/-- A one-pose plan in frame "map". -/
def planW : Path := { frame_id := "map", stamp := 0, poses := [poseM] }

/-- A zero-pose path. -/
def emptyPath : Path := { frame_id := "map", stamp := 1, poses := [] }

/-- Last emitted command: linear 0.5, angular 0, stamped 0.9 s. -/
def lastW : TwistStamped := ⟨"map", 0.9, ⟨0.5, 0⟩⟩

/-- Controller state holding `planW` with last command `lastW`. -/
def stW : ControllerState := ⟨planW, lastW⟩

/-- Robot pose at the origin in frame "map", stamped 1 s (so the tick against
`stW` has dt = 0.1 > 0). -/
def poseW : PoseStamped := ⟨"map", 1, ⟨0, 0⟩⟩

/-- Current twist: cruising at 0.5 m/s. -/
def speedW : Twist := ⟨0.5, 0⟩

/-- Last command stamped at 2 s, after `poseW`'s stamp, so the tick has
dt = 1 − 2 = −1 ≤ 0. -/
def lastLate : TwistStamped := ⟨"map", 2, ⟨0.5, 0⟩⟩

/-- State with a non-monotonic clock: last command stamped later than the
incoming pose. -/
def stLate : ControllerState := ⟨planW, lastLate⟩

/-- State holding an empty plan. -/
def stEmpty : ControllerState := ⟨{ frame_id := "map", stamp := 0, poses := [] }, lastW⟩

/-- Two-pose plan whose poses are both beyond `cfgW`'s half-costmap extent
(5 m) from the origin; the second pose (6 m) is closer than the first
(10 m). -/
def planFar : Path :=
  { frame_id := "map", stamp := 0
    poses := [⟨"map", 0, ⟨10, 0⟩⟩, ⟨"map", 0, ⟨6, 0⟩⟩] }

/-- State holding `planFar`. -/
def stFar : ControllerState := ⟨planFar, lastW⟩

/-- One-pose plan whose single pose is 10 m from the origin, beyond the 5 m
half-costmap extent of `cfgW`. -/
def planVeryFar : Path := { frame_id := "map", stamp := 0, poses := [⟨"map", 0, ⟨10, 0⟩⟩] }

/-- Robot pose in a frame distinct from the local one, positioned at (1, 0). -/
def poseOdom : PoseStamped := ⟨"odom", 0, ⟨1, 0⟩⟩

/-- Carrot pose at (3, 4) in the robot-local frame, distance 5 from the
local origin. -/
def carrotLocal : PoseStamped := ⟨"base_link", 0, ⟨3, 4⟩⟩

/-- The spec's carrot-selection scenario window: poses (0,0), (1,0), (2,0) in
the robot-local frame. -/
def windowScenario : List PoseStamped :=
  [⟨"base_link", 0, ⟨0, 0⟩⟩, ⟨"base_link", 0, ⟨1, 0⟩⟩, ⟨"base_link", 0, ⟨2, 0⟩⟩]

end

/-- Basic clamp bounds: under the std::clamp precondition `lo ≤ hi` the result
lies in `[lo, hi]`. -/
theorem stdClamp_mem (v lo hi : ℝ) (h : lo ≤ hi) :
    lo ≤ stdClamp v lo hi ∧ stdClamp v lo hi ≤ hi := by
  unfold stdClamp
  split
  · exact ⟨le_refl lo, h⟩
  · split
    · exact ⟨h, le_refl hi⟩
    · constructor
      · exact le_of_not_gt (by assumption)
      · exact le_of_not_gt (by assumption)

/-- Planar hypot with a zero second component is the absolute value of the
first. -/
theorem hypot_x_zero (x : ℝ) : hypot x 0 = |x| := by
  unfold hypot
  rw [show x ^ 2 + 0 ^ 2 = x ^ 2 by ring, Real.sqrt_sq_eq_abs]

/-- C1: the collision interlock stub produces no boolean at all — its body is
only TODO comments, so control falls off the end of a non-void function — and
in particular it has no execution path that deterministically returns "no
collision" (`false`) as the claim states. -/
theorem c1_collision_stub_returns_none (p c : PoseStamped) :
    isCollisionImminent p c = none ∧ isCollisionImminent p c ≠ some false := by
  constructor
  · rfl
  · simp [isCollisionImminent]

/-- C5 counterexample: calling `setPlan` with a zero-pose path on a state
holding a one-pose plan silently replaces the held path with the empty one —
no failure occurs and the held path does not stay unchanged. -/
theorem c5_empty_setPlan_replaces :
    (setPlan stW emptyPath).global_plan.poses.length = 0 ∧
    stW.global_plan.poses.length = 1 := by
  constructor <;> rfl

/-- C5 amended: `setPlan` replaces the held path wholesale for every incoming
path, zero poses included; it cannot fail (its type has no error outcome) and
leaves the last emitted command untouched.  Emptiness is only detected later,
by `transformGlobalPlan`'s empty-plan check. -/
theorem c5_amended_setPlan_total (st : ControllerState) (path : Path) :
    (setPlan st path).global_plan = path ∧
    (setPlan st path).last_cmd = st.last_cmd :=
  ⟨rfl, rfl⟩

/-- C7: the curvature law returns `2·y/d²` when the chord length exceeds the
0.001 epsilon and 0 otherwise; the raw angular command
`desired_linear_vel · curvature` vanishes for a carrot exactly ahead (y = 0);
and on the spec scenario (carrot (1,1), chord √2) the curvature is 1 and the
raw angular command at `desired_linear_vel = 0.5` is 0.5. -/
theorem c7_curvature_law :
    (∀ y d : ℝ, 0.001 < d → curvature y d = 2 * y / (d * d))
  ∧ (∀ y d : ℝ, d ≤ 0.001 → curvature y d = 0)
  ∧ (∀ dlv d : ℝ, dlv * curvature 0 d = 0)
  ∧ curvature 1 (Real.sqrt 2) = 1
  ∧ (0.5 : ℝ) * curvature 1 (Real.sqrt 2) = 0.5 := by
  have hs2 : (0.001 : ℝ) < Real.sqrt 2 := by
    have h1 : (1 : ℝ) ≤ Real.sqrt 2 := by
      rw [show (1 : ℝ) = Real.sqrt 1 from Real.sqrt_one.symm]
      exact Real.sqrt_le_sqrt (by norm_num)
    linarith
  have hmul : Real.sqrt 2 * Real.sqrt 2 = 2 := Real.mul_self_sqrt (by norm_num)
  have hcurv2 : curvature 1 (Real.sqrt 2) = 1 := by
    unfold curvature
    rw [if_pos hs2, hmul]
    norm_num
  refine ⟨?_, ?_, ?_, hcurv2, ?_⟩
  · intro y d h
    unfold curvature
    rw [if_pos h]
  · intro y d h
    unfold curvature
    rw [if_neg (not_lt.mpr h)]
  · intro dlv d
    unfold curvature
    split <;> ring
  · rw [hcurv2]; norm_num

/-- C7 witness: concrete instance of the above-epsilon branch of the
curvature law, at lateral offset 3 and chord length 2. -/
theorem c7_curvature_law_witness :
    (0.001 : ℝ) < 2 ∧ curvature 3 2 = 2 * 3 / (2 * 2) :=
  ⟨by norm_num, c7_curvature_law.1 3 2 (by norm_num)⟩

/-- C8: per-axis acceleration limiting computes `(raw − last)/dt`, clamps to
`last + max_accel·dt` above the acceleration bound and to
`last − max_decel·dt` below the deceleration bound, passes the raw value
through otherwise; the spec scenario (dt = 0.1, max_accel = 1, last = 0,
raw = 0.5) yields 0.1; and `applyKinematicConstraints` applies exactly this
limiter independently to the linear and angular axes (with shared bounds)
whenever the end-of-path scaling is not triggered. -/
theorem c8_accel_limiting (maxA maxD last raw dt : ℝ) (hdt : 0 < dt)
    (hA : 0 ≤ maxA) (hD : 0 ≤ maxD) :
    ((raw - last) / dt > maxA →
      limitAccel maxA maxD last raw dt = last + maxA * dt)
  ∧ ((raw - last) / dt < -maxD →
      limitAccel maxA maxD last raw dt = last - maxD * dt)
  ∧ (-maxD ≤ (raw - last) / dt → (raw - last) / dt ≤ maxA →
      limitAccel maxA maxD last raw dt = raw)
  ∧ limitAccel 1 1 0 0.5 0.1 = 0.1
  ∧ (∀ (cfg : Config) (last_cmd : TwistStamped) (lin ang derr ld : ℝ),
      derr ≤ 2 * cfg.costmap_resolution →
        applyKinematicConstraints cfg last_cmd lin ang derr ld dt =
          (limitAccel cfg.max_accel cfg.max_decel last_cmd.twist.linear lin dt,
           limitAccel cfg.max_accel cfg.max_decel last_cmd.twist.angular ang dt)) := by
  refine ⟨?_, ?_, ?_, ?_, ?_⟩
  · intro h
    unfold limitAccel
    rw [if_pos h]
  · intro h
    unfold limitAccel
    rw [if_neg (not_lt.mpr (le_of_lt (lt_of_lt_of_le h (by linarith)))), if_pos h]
  · intro h1 h2
    unfold limitAccel
    rw [if_neg (not_lt.mpr h2), if_neg (not_lt.mpr h1)]
  · unfold limitAccel
    norm_num
  · intro cfg last_cmd lin ang derr ld h
    unfold applyKinematicConstraints
    rw [if_neg (not_lt.mpr h)]

/-- Auxiliary: the carrot scan skips a pose strictly inside the lookahead
radius. -/
theorem findCarrot_cons_neg (p : PoseStamped) (rest : List PoseStamped) (l : ℝ)
    (hp : ¬ l ≤ dist0 p) :
    findCarrot l (p :: rest) = findCarrot l rest := by
  have hstep : findCarrot l (p :: rest) =
      if dist0 p ≥ l then some p else findCarrot l rest := rfl
  rw [hstep, if_neg hp]

/-- Auxiliary: carrot selection on a cons whose head is strictly inside the
lookahead radius agrees with selection on the tail (for a non-empty tail). -/
theorem selectCarrot_cons_of_lt (p : PoseStamped) (rest : List PoseStamped)
    (l : ℝ) (hp : ¬ l ≤ dist0 p) (hr : rest ≠ []) :
    selectCarrot (p :: rest) l = selectCarrot rest l := by
  unfold selectCarrot
  rw [findCarrot_cons_neg p rest l hp]
  cases hf : findCarrot l rest with
  | some c => rfl
  | none =>
    rcases rest with _ | ⟨b, bs⟩
    · exact absurd rfl hr
    · rfl

/-- C9: on every non-empty window, carrot selection returns the first pose in
window order whose distance from the robot-local origin is at least the
lookahead distance, and when every pose lies strictly inside the lookahead
radius it returns the window's last pose. -/
theorem c9_select_carrot_first_or_last (w : List PoseStamped) (l : ℝ)
    (hw : w ≠ []) :
    (∃ i, ∃ hi : i < w.length, l ≤ dist0 (w.get ⟨i, hi⟩)
      ∧ (∀ j, ∀ hj : j < w.length, j < i → dist0 (w.get ⟨j, hj⟩) < l)
      ∧ selectCarrot w l = some (w.get ⟨i, hi⟩))
  ∨ ((∀ p ∈ w, dist0 p < l) ∧ selectCarrot w l = some (w.getLast hw)) := by
  induction w with
  | nil => exact absurd rfl hw
  | cons p rest ih =>
    by_cases hp : l ≤ dist0 p
    · left
      refine ⟨0, Nat.succ_pos _, hp, ?_, ?_⟩
      · intro j hj hj0
        exact absurd hj0 (Nat.not_lt_zero j)
      · unfold selectCarrot findCarrot
        rw [if_pos hp]
        rfl
    · rcases eq_or_ne rest [] with hrest | hrest
      · subst hrest
        right
        refine ⟨?_, ?_⟩
        · intro q hq
          rw [List.mem_singleton] at hq
          subst hq
          exact not_le.mp hp
        · unfold selectCarrot findCarrot
          rw [if_neg hp]
          rfl
      · have hstep := selectCarrot_cons_of_lt p rest l hp hrest
        rcases ih hrest with ⟨i, hi, hq, hpre, hs⟩ | ⟨hall, hs⟩
        · left
          refine ⟨i + 1, Nat.succ_lt_succ hi, hq, ?_, ?_⟩
          · intro j hj hlt
            cases j with
            | zero => exact not_le.mp hp
            | succ k =>
              exact hpre k (Nat.lt_of_succ_lt_succ hj) (Nat.lt_of_succ_lt_succ hlt)
          · rw [hstep, hs]
            rfl
        · right
          refine ⟨?_, ?_⟩
          · intro q hq
            rcases List.mem_cons.mp hq with rfl | hq'
            · exact not_le.mp hp
            · exact hall q hq'
          · rw [hstep, hs]
            congr 1
            exact (List.getLast_cons hrest).symm

/-- C9 witness: the spec scenario window (0,0), (1,0), (2,0) with lookahead
1.5 is non-empty, and the theorem applies to it. -/
theorem c9_select_carrot_witness :
    windowScenario ≠ [] ∧
    ((∃ i, ∃ hi : i < windowScenario.length,
        (1.5 : ℝ) ≤ dist0 (windowScenario.get ⟨i, hi⟩)
      ∧ (∀ j, ∀ hj : j < windowScenario.length, j < i →
          dist0 (windowScenario.get ⟨j, hj⟩) < 1.5)
      ∧ selectCarrot windowScenario 1.5 = some (windowScenario.get ⟨i, hi⟩))
    ∨ ((∀ p ∈ windowScenario, dist0 p < 1.5) ∧
        selectCarrot windowScenario 1.5 =
          some (windowScenario.getLast (by simp [windowScenario])))) :=
  ⟨by simp [windowScenario],
   c9_select_carrot_first_or_last windowScenario 1.5 (by simp [windowScenario])⟩

/-- C8 witness: the spec scenario instance, with dt = 0.1 > 0. -/
theorem c8_accel_limiting_witness :
    (0 : ℝ) < 0.1 ∧ limitAccel 1 1 0 0.5 0.1 = 0.1 :=
  ⟨by norm_num,
   (c8_accel_limiting 1 1 0 0.5 0.1 (by norm_num) (by norm_num) (by norm_num)).2.2.2.1⟩

/-- C2: every velocity command a tick emits has linear velocity in
`[0, desired_linear_vel]` and angular velocity in
`[−max_angular_vel, max_angular_vel]`, for every held state, pose and current
twist (hence every raw velocity reaching the final clamp) and every
`dt = pose.stamp − last_cmd.stamp > 0`, under the configuration sanity
conditions `desired_linear_vel ≥ 0` and `max_angular_vel ≥ 0` that make the
clamp intervals non-degenerate (std::clamp requires `lo ≤ hi`). -/
theorem c2_emitted_command_bounded (cfg : Config) (tf : TFOracle)
    (collisionUB : PoseStamped → PoseStamped → Bool) (now : ℝ)
    (st : ControllerState) (pose : PoseStamped) (speed : Twist)
    (cmd : TwistStamped)
    (hdlv : 0 ≤ cfg.desired_linear_vel) (hmav : 0 ≤ cfg.max_angular_vel)
    (hdt : 0 < pose.stamp - st.last_cmd.stamp)
    (h : (computeVelocityCommands cfg tf collisionUB now st pose speed).2 =
      .ok cmd) :
    0 ≤ cmd.twist.linear ∧ cmd.twist.linear ≤ cfg.desired_linear_vel ∧
    -cfg.max_angular_vel ≤ cmd.twist.angular ∧
    cmd.twist.angular ≤ cfg.max_angular_vel := by
  unfold computeVelocityCommands at h
  cases hr : (transformGlobalPlan cfg tf st pose).2 with
  | error e =>
    rw [hr] at h
    simp at h
  | ok tp =>
    rw [hr] at h
    simp only [] at h
    cases hc : selectCarrot tp.poses (getLookAheadDistance cfg speed) with
    | none =>
      rw [hc] at h
      simp at h
    | some carrot =>
      rw [hc] at h
      simp only [] at h
      by_cases hcol : collisionUB pose carrot
      · rw [if_pos hcol] at h
        simp at h
      · rw [if_neg hcol] at h
        simp only [Except.ok.injEq] at h
        subst h
        exact ⟨(stdClamp_mem _ 0 _ hdlv).1, (stdClamp_mem _ 0 _ hdlv).2,
          (stdClamp_mem _ _ _ (neg_le_self hmav)).1,
          (stdClamp_mem _ _ _ (neg_le_self hmav)).2⟩

/-- Square-root evaluation used by the concrete runs. -/
theorem sqrt_hundred : Real.sqrt 100 = 10 := by
  rw [show (100 : ℝ) = 10 ^ 2 by norm_num]
  exact Real.sqrt_sq (by norm_num)

/-- Square-root evaluation used by the concrete runs. -/
theorem sqrt_thirtysix : Real.sqrt 36 = 6 := by
  rw [show (36 : ℝ) = 6 ^ 2 by norm_num]
  exact Real.sqrt_sq (by norm_num)

/-- Evaluation of a full successful tick on the one-pose plan `planW`: the
robot sits at the origin of the plan frame, the single plan pose (1, 0) is
the carrot, curvature is 0, and the emitted command is linear 0.5, angular
0. -/
theorem runW_eval :
    computeVelocityCommands cfgW tfNone noCollision 2 stW poseW speedW =
      ({ global_plan := { frame_id := "map", stamp := 0, poses := [poseM] },
         last_cmd := ⟨"map", 2, ⟨0.5, 0⟩⟩ },
       .ok ⟨"map", 2, ⟨0.5, 0⟩⟩) := by
  norm_num [computeVelocityCommands, transformGlobalPlan, transformGlobalPlanAux,
    transformPose, tfNone, noCollision, minByIdx, minByAux, windowTo,
    transformWindow, euclidean_distance, hypot, selectCarrot, findCarrot, dist0,
    getLookAheadDistance, applyKinematicConstraints, limitAccel, stdClamp,
    curvature, carrotDistance, cfgW, stW, planW, lastW, poseW, poseM, speedW,
    defaultPose, abs_of_nonneg]

/-- C2 witness: a concrete successful tick (one-pose plan, robot at the
origin, dt = 0.1 > 0) whose emitted command (linear 0.5, angular 0) the
theorem bounds. -/
theorem c2_emitted_command_bounded_witness :
    (0 : ℝ) ≤ cfgW.desired_linear_vel ∧ (0 : ℝ) ≤ cfgW.max_angular_vel ∧
    (0 : ℝ) < poseW.stamp - stW.last_cmd.stamp ∧
    (computeVelocityCommands cfgW tfNone noCollision 2 stW poseW speedW).2 =
      .ok ⟨"map", 2, ⟨0.5, 0⟩⟩ ∧
    (0 ≤ (TwistStamped.mk "map" 2 ⟨0.5, 0⟩).twist.linear ∧
     (TwistStamped.mk "map" 2 ⟨0.5, 0⟩).twist.linear ≤ cfgW.desired_linear_vel ∧
     -cfgW.max_angular_vel ≤ (TwistStamped.mk "map" 2 ⟨0.5, 0⟩).twist.angular ∧
     (TwistStamped.mk "map" 2 ⟨0.5, 0⟩).twist.angular ≤ cfgW.max_angular_vel) := by
  have hok : (computeVelocityCommands cfgW tfNone noCollision 2 stW poseW speedW).2 =
      .ok ⟨"map", 2, ⟨0.5, 0⟩⟩ := by rw [runW_eval]
  refine ⟨by norm_num [cfgW], by norm_num [cfgW],
    by norm_num [poseW, stW, lastW], hok, ?_⟩
  exact c2_emitted_command_bounded cfgW tfNone noCollision 2 stW poseW speedW _
    (by norm_num [cfgW]) (by norm_num [cfgW])
    (by norm_num [poseW, stW, lastW]) hok

/-- Evaluation of a tick whose incoming pose is stamped before the last
emitted command (dt = 1 − 2 = −1 ≤ 0): the pipeline proceeds exactly as for a
positive dt and emits a command. -/
theorem runLate_eval :
    computeVelocityCommands cfgW tfNone noCollision 3 stLate poseW speedW =
      ({ global_plan := { frame_id := "map", stamp := 0, poses := [poseM] },
         last_cmd := ⟨"map", 3, ⟨0.5, 0⟩⟩ },
       .ok ⟨"map", 3, ⟨0.5, 0⟩⟩) := by
  norm_num [computeVelocityCommands, transformGlobalPlan, transformGlobalPlanAux,
    transformPose, tfNone, noCollision, minByIdx, minByAux, windowTo,
    transformWindow, euclidean_distance, hypot, selectCarrot, findCarrot, dist0,
    getLookAheadDistance, applyKinematicConstraints, limitAccel, stdClamp,
    curvature, carrotDistance, cfgW, stLate, planW, lastLate, poseW, poseM,
    speedW, defaultPose, abs_of_nonneg]

/-- C4 counterexample: a tick with dt = −1 ≤ 0 does not fail — the code has
no time-step validation at all — and a velocity command is emitted. -/
theorem c4_negative_dt_emits_command :
    poseW.stamp - stLate.last_cmd.stamp ≤ 0 ∧
    (computeVelocityCommands cfgW tfNone noCollision 3 stLate poseW speedW).2 =
      .ok ⟨"map", 3, ⟨0.5, 0⟩⟩ := by
  refine ⟨by norm_num [poseW, stLate, lastLate], ?_⟩
  rw [runLate_eval]

/-- C4 amended: the tick performs no time-step validation: there is no
degenerate-time-step error in the code, and whether a command is emitted —
and which error is raised otherwise — does not depend on the last emitted
command, hence not on `dt = pose.stamp − last_cmd.stamp`.  For `dt ≤ 0` the
acceleration limiter still divides by dt and a command is emitted exactly
when it would be for `dt > 0`. -/
theorem c4_amended_emission_independent_of_dt (cfg : Config) (tf : TFOracle)
    (collisionUB : PoseStamped → PoseStamped → Bool) (now : ℝ)
    (st : ControllerState) (pose : PoseStamped) (speed : Twist)
    (cmdAlt : TwistStamped) (e : ControllerError) :
    ((computeVelocityCommands cfg tf collisionUB now
        { st with last_cmd := cmdAlt } pose speed).2 = .error e ↔
     (computeVelocityCommands cfg tf collisionUB now st pose speed).2 =
       .error e) := by
  unfold computeVelocityCommands transformGlobalPlan
  simp only []
  cases hr : (transformGlobalPlanAux cfg tf st.global_plan pose).2 with
  | error e2 => exact Iff.rfl
  | ok tp =>
    dsimp only []
    cases hc : selectCarrot tp.poses (getLookAheadDistance cfg speed) with
    | none => exact Iff.rfl
    | some carrot =>
      by_cases hcol : collisionUB pose carrot = true <;> simp [hcol]

/-- Evaluation of `transformGlobalPlanAux` on the two-pose plan `planFar`: the
closest pose is the second one (6 m < 10 m), the prefix before it is erased,
and since 6 m exceeds the 5 m half-costmap extent the window is empty and the
empty-window error is raised — after the pruning already happened. -/
theorem tgpAux_planFar :
    transformGlobalPlanAux cfgW tfNone planFar poseW =
      ({ frame_id := "map", stamp := 0, poses := [⟨"map", 0, ⟨6, 0⟩⟩] },
       .error .emptyWindow) := by
  norm_num [transformGlobalPlanAux, transformPose, tfNone, minByIdx, minByAux,
    windowTo, transformWindow, euclidean_distance, hypot, cfgW, planFar, poseW,
    defaultPose, sqrt_hundred, sqrt_thirtysix]
  exact List.cons_ne_nil _ _

/-- C3 counterexample: a tick that fails (empty window) but has already pruned
the held path from two poses down to one — shared state is partially mutated
on an error tick. -/
theorem c3_error_tick_prunes_path :
    (computeVelocityCommands cfgW tfNone noCollision 2 stFar poseW speedW).2 =
      .error .emptyWindow ∧
    (computeVelocityCommands cfgW tfNone noCollision 2 stFar poseW
        speedW).1.global_plan.poses.length = 1 ∧
    stFar.global_plan.poses.length = 2 := by
  have hrun : computeVelocityCommands cfgW tfNone noCollision 2 stFar poseW speedW =
      ({ global_plan := { frame_id := "map", stamp := 0, poses := [⟨"map", 0, ⟨6, 0⟩⟩] }, last_cmd := lastW },
       .error .emptyWindow) := by
    unfold computeVelocityCommands transformGlobalPlan
    norm_num [stFar, tgpAux_planFar]
  rw [hrun]
  norm_num [stFar, planFar]

/-- Auxiliary: on the empty-plan and robot-transform failures,
`transformGlobalPlanAux` leaves the plan untouched — both throws precede the
prefix erasure in the source. -/
theorem transformGlobalPlanAux_early_error (cfg : Config) (tf : TFOracle)
    (plan : Path) (pose : PoseStamped) (e : ControllerError)
    (he : e = ControllerError.emptyPlan ∨ e = ControllerError.transformFailure)
    (h : (transformGlobalPlanAux cfg tf plan pose).2 = .error e) :
    (transformGlobalPlanAux cfg tf plan pose).1 = plan := by
  unfold transformGlobalPlanAux at h ⊢
  by_cases h0 : plan.poses = []
  · rw [if_pos h0]
  · rw [if_neg h0] at h ⊢
    cases htp : transformPose tf plan.frame_id pose with
    | none => rfl
    | some robot =>
      rw [htp] at h
      dsimp only [] at h ⊢
      split at h
      · have hew : ControllerError.emptyWindow = e := by simpa using h
        rcases he with he | he <;> rw [← hew] at he <;> exact absurd he (by decide)
      · simp at h

/-- C3 amended: on every failing tick the last emitted command is unchanged,
and on the failures that precede pruning (empty plan, robot-transform
failure) the whole state — held path included — is unchanged.  (The empty-
window and collision failures, by contrast, can leave the path already
pruned, as the counterexample shows.) -/
theorem c3_amended_state_on_error (cfg : Config) (tf : TFOracle)
    (collisionUB : PoseStamped → PoseStamped → Bool) (now : ℝ)
    (st : ControllerState) (pose : PoseStamped) (speed : Twist)
    (e : ControllerError)
    (h : (computeVelocityCommands cfg tf collisionUB now st pose speed).2 =
      .error e) :
    (computeVelocityCommands cfg tf collisionUB now st pose
        speed).1.last_cmd = st.last_cmd ∧
    ((e = ControllerError.emptyPlan ∨ e = ControllerError.transformFailure) →
      (computeVelocityCommands cfg tf collisionUB now st pose speed).1 = st) := by
  unfold computeVelocityCommands at h ⊢
  cases hr : (transformGlobalPlan cfg tf st pose).2 with
  | error e2 =>
    rw [hr] at h
    dsimp only [] at h ⊢
    have he2 : e2 = e := by simpa using h
    subst he2
    constructor
    · rfl
    · intro he
      have hr2 : (transformGlobalPlanAux cfg tf st.global_plan pose).2 =
          .error e2 := hr
      have h1 := transformGlobalPlanAux_early_error cfg tf st.global_plan pose
        e2 he hr2
      show ({ st with
        global_plan := (transformGlobalPlanAux cfg tf st.global_plan pose).1 }) = st
      rw [h1]
  | ok tp =>
    rw [hr] at h
    dsimp only [] at h ⊢
    cases hc : selectCarrot tp.poses (getLookAheadDistance cfg speed) with
    | none =>
      rw [hc] at h
      dsimp only [] at h ⊢
      have hew : ControllerError.emptyWindow = e := by simpa using h
      constructor
      · rfl
      · intro he
        rcases he with he | he <;> rw [← hew] at he <;> exact absurd he (by decide)
    | some carrot =>
      rw [hc] at h
      dsimp only [] at h ⊢
      by_cases hcol : collisionUB pose carrot = true
      · rw [if_pos hcol] at h ⊢
        have hci : ControllerError.collisionImminent = e := by simpa using h
        constructor
        · rfl
        · intro he
          rcases he with he | he <;> rw [← hci] at he <;> exact absurd he (by decide)
      · rw [if_neg hcol] at h
        simp at h

/-- Evaluation: a tick against an empty held plan fails with the empty-plan
error and the state is returned unchanged. -/
theorem runEmpty_eval :
    computeVelocityCommands cfgW tfNone noCollision 2 stEmpty poseW speedW =
      (stEmpty, .error .emptyPlan) := by
  norm_num [computeVelocityCommands, transformGlobalPlan, transformGlobalPlanAux,
    stEmpty]

/-- C3 amended witness: the empty-plan failing tick, on which both conjuncts
of the amended statement hold with the state fully unchanged. -/
theorem c3_amended_state_on_error_witness :
    (computeVelocityCommands cfgW tfNone noCollision 2 stEmpty poseW speedW).2 =
      .error .emptyPlan ∧
    ((computeVelocityCommands cfgW tfNone noCollision 2 stEmpty poseW
        speedW).1.last_cmd = stEmpty.last_cmd ∧
     ((ControllerError.emptyPlan = ControllerError.emptyPlan ∨
       ControllerError.emptyPlan = ControllerError.transformFailure) →
        (computeVelocityCommands cfgW tfNone noCollision 2 stEmpty poseW
          speedW).1 = stEmpty)) := by
  have hok : (computeVelocityCommands cfgW tfNone noCollision 2 stEmpty poseW
      speedW).2 = .error .emptyPlan := by rw [runEmpty_eval]
  exact ⟨hok, c3_amended_state_on_error cfgW tfNone noCollision 2 stEmpty poseW
    speedW ControllerError.emptyPlan hok⟩

/-- C6: the carrot distance actually computed mixes frames — it subtracts the
carrot's robot-local coordinates from the robot pose's own coordinates in the
frame the pose arrived in.  At robot pose (1, 0) and carrot (3, 4) it yields
√20 ≈ 4.47, whereas the distance from the robot-local origin to the carrot,
`hypot(carrot.x, carrot.y)`, is 5: the two disagree, so the computed value
does depend on the robot's own pose coordinates. -/
theorem c6_carrot_distance_frame_mixing :
    carrotDistance poseOdom carrotLocal = Real.sqrt 20 ∧
    hypot carrotLocal.position.x carrotLocal.position.y = 5 ∧
    carrotDistance poseOdom carrotLocal ≠
      hypot carrotLocal.position.x carrotLocal.position.y := by
  have h20 : carrotDistance poseOdom carrotLocal = Real.sqrt 20 := by
    unfold carrotDistance hypot poseOdom carrotLocal
    norm_num
  have h5 : hypot carrotLocal.position.x carrotLocal.position.y = 5 := by
    unfold hypot carrotLocal
    rw [show (3 : ℝ) ^ 2 + (4 : ℝ) ^ 2 = 5 ^ 2 by norm_num]
    exact Real.sqrt_sq (by norm_num)
  refine ⟨h20, h5, ?_⟩
  rw [h20, h5]
  intro heq
  have h25 : Real.sqrt 20 < 5 := by
    have := Real.sqrt_lt_sqrt (by norm_num : (0 : ℝ) ≤ 20) (by norm_num : (20 : ℝ) < 25)
    rw [show (25 : ℝ) = 5 ^ 2 by norm_num, Real.sqrt_sq (by norm_num)] at this
    exact this
  exact absurd heq (ne_of_lt h25)

/-- Evaluation of `transformGlobalPlanAux` on the one-pose plan `planVeryFar`:
the robot-pose transform succeeds (identity frame), the plan is non-empty, yet
the single (closest) pose lies 10 m away — beyond the 5 m half-costmap
extent — so the window is empty and the empty-window error is raised. -/
theorem tgpAux_planVeryFar :
    transformGlobalPlanAux cfgW tfNone planVeryFar poseW =
      ({ frame_id := "map", stamp := 0, poses := [⟨"map", 0, ⟨10, 0⟩⟩] },
       .error .emptyWindow) := by
  norm_num [transformGlobalPlanAux, transformPose, tfNone, minByIdx, minByAux,
    windowTo, transformWindow, euclidean_distance, hypot, cfgW, planVeryFar,
    poseW, defaultPose, sqrt_hundred]

/-- C10 counterexample: a non-empty held plan whose robot-pose transform
succeeds can still produce an empty window — when already the closest pose is
farther than the half-costmap extent — so the empty-window failure branch is
reachable and the window is not always of size at least one. -/
theorem c10_empty_window_reachable :
    planVeryFar.poses ≠ [] ∧
    transformPose tfNone planVeryFar.frame_id poseW = some poseW ∧
    (transformGlobalPlanAux cfgW tfNone planVeryFar poseW).2 =
      .error .emptyWindow := by
  refine ⟨by simp [planVeryFar], rfl, ?_⟩
  rw [tgpAux_planVeryFar]

/-- Auxiliary: the transform step over the window preserves the number of
poses — a per-pose transform failure still contributes one (stale) entry. -/
theorem transformWindow_length (tf : TFOracle) (bf pf : String) (stamp : ℝ)
    (prev : PoseStamped) (l : List PoseStamped) :
    (transformWindow tf bf pf stamp prev l).length = l.length := by
  induction l generalizing prev with
  | nil => rfl
  | cons gp rest ih =>
    show (match transformPose tf bf ⟨pf, stamp, gp.position⟩ with
      | some t => t :: transformWindow tf bf pf stamp t rest
      | none => prev :: transformWindow tf bf pf stamp prev rest).length = rest.length + 1
    cases transformPose tf bf ⟨pf, stamp, gp.position⟩ with
    | some t => simp [ih]
    | none => simp [ih]

/-- C10 amended: the transformed window has exactly one entry per pose of the
global window `[closest, window-end)`; that window is empty precisely when
already the closest pose lies beyond the half-costmap extent (so the
empty-window failure is reachable); and a per-pose transform failure does not
shrink the window — it contributes the previous successfully transformed pose
(the default-initialized pose when none has succeeded yet). -/
theorem c10_amended_window_shape :
    (∀ (tf : TFOracle) (bf pf : String) (stamp : ℝ) (prev : PoseStamped)
        (l : List PoseStamped),
      (transformWindow tf bf pf stamp prev l).length = l.length)
  ∧ (∀ (robot : PoseStamped) (maxDist : ℝ) (p : PoseStamped)
        (rest : List PoseStamped),
      windowTo robot maxDist (p :: rest) = [] ↔
        maxDist < euclidean_distance robot p)
  ∧ (∀ (tf : TFOracle) (bf pf : String) (stamp : ℝ) (prev gp : PoseStamped)
        (rest : List PoseStamped),
      transformPose tf bf ⟨pf, stamp, gp.position⟩ = none →
        transformWindow tf bf pf stamp prev (gp :: rest) =
          prev :: transformWindow tf bf pf stamp prev rest)
  ∧ (∀ (tf : TFOracle) (bf pf : String) (stamp : ℝ) (prev gp t : PoseStamped)
        (rest : List PoseStamped),
      transformPose tf bf ⟨pf, stamp, gp.position⟩ = some t →
        transformWindow tf bf pf stamp prev (gp :: rest) =
          t :: transformWindow tf bf pf stamp t rest) := by
  refine ⟨transformWindow_length, ?_, ?_, ?_⟩
  · intro robot maxDist p rest
    unfold windowTo
    by_cases h : euclidean_distance robot p > maxDist
    · rw [if_pos h]
      simpa using h
    · rw [if_neg h]
      simpa using h
  · intro tf bf pf stamp prev gp rest h
    show (match transformPose tf bf ⟨pf, stamp, gp.position⟩ with
      | some t => t :: transformWindow tf bf pf stamp t rest
      | none => prev :: transformWindow tf bf pf stamp prev rest) =
      prev :: transformWindow tf bf pf stamp prev rest
    rw [h]
  · intro tf bf pf stamp prev gp t rest h
    show (match transformPose tf bf ⟨pf, stamp, gp.position⟩ with
      | some t => t :: transformWindow tf bf pf stamp t rest
      | none => prev :: transformWindow tf bf pf stamp prev rest) =
      t :: transformWindow tf bf pf stamp t rest
    rw [h]

/-- C10 amended witness: the identity-frame transform succeeds on the plan
pose `poseM`, and the transform step prepends its (trivially transformed)
image as the theorem's last conjunct states. -/
theorem c10_amended_window_shape_witness :
    transformPose tfNone "map" ⟨"map", 0, poseM.position⟩ = some ⟨"map", 0, poseM.position⟩ ∧
    transformWindow tfNone "map" "map" 0 defaultPose [poseM] =
      ⟨"map", 0, poseM.position⟩ :: transformWindow tfNone "map" "map" 0 ⟨"map", 0, poseM.position⟩ [] :=
  ⟨rfl,
   c10_amended_window_shape.2.2.2 tfNone "map" "map" 0 defaultPose poseM
     ⟨"map", 0, poseM.position⟩ [] rfl⟩

end PurePursuit
